import Mathlib

/-!
# Verification of the web-hoop basketball game core

Shallow embedding of the game's core logic:

* `InputManager` (src/js/game/InputManager.js): gesture force derivation,
  swipe commit threshold, trajectory preview integration.
* `Hoop` (src/js/game/Hoop.js): the basket-detection predicate.
* `Basketball` (two versions present in the sources): reset and the
  position/velocity getters.
* `Game` (Game.js): the shot state machine — `handleSwipe`, `checkForBasket`,
  `checkBallState`, `testShot`, the timer-deferred reset callbacks, and the
  score / high-score / streak bookkeeping.

JavaScript numbers are embedded as rationals (`ℚ`); the square-root
comparisons of the source (`Math.sqrt(d) < c`, `distanceTo(p) > c`,
`velocity.length() < c`) are embedded as the equivalent comparisons of
squares against `c^2` (both sides are nonnegative), and the theorems bridge
back to `Real.sqrt` where a claim speaks of distances or speeds.

Timer-deferred callbacks (`setTimeout`, `delay(...).then`) are modelled as
explicit events that may fire only while the corresponding scheduled-flag is
set; physics-engine state (ball position/velocity) is owned by the external
physics collaborator and enters the model as per-frame observations.
-/

/-- A 3D vector with rational components (embeds `THREE.Vector3`). -/
structure Vec3 where
  x : ℚ
  y : ℚ
  z : ℚ
deriving DecidableEq

/-- The zero vector, `new THREE.Vector3()`. -/
def vzero : Vec3 := ⟨0, 0, 0⟩

/-- Componentwise vector addition. -/
def vadd (a b : Vec3) : Vec3 := ⟨a.x + b.x, a.y + b.y, a.z + b.z⟩

/-- Scalar multiple of a vector (`multiplyScalar`). -/
def vsmul (c : ℚ) (v : Vec3) : Vec3 := ⟨c * v.x, c * v.y, c * v.z⟩

/-- `THREE.MathUtils.clamp(value, min, max) = Math.max(min, Math.min(max, value))`. -/
def clampQ (value lo hi : ℚ) : ℚ := max lo (min value hi)

/- ### InputManager -/

/-- The swipe-tracking state of `InputManager`: `startPoint`, `endPoint`
(screen coordinates), the `isSwiping` flag and the configured `strength`. -/
structure InputSt where
  startPoint : ℚ × ℚ
  endPoint : ℚ × ℚ
  isSwiping : Bool
  strength : ℚ
deriving DecidableEq

/-- `minSwipeDistance = 20` pixels. -/
def minSwipeDistance : ℚ := 20

/-- The unclamped direction vector of `InputManager.calculateForce`:
`((start.x - end.x) * 0.01, (start.y - end.y) * 0.01, -1)` scaled by
`strength` (`multiplyScalar(this.strength)`). -/
def InputManager.rawForce (s e : ℚ × ℚ) (strength : ℚ) : Vec3 :=
  vsmul strength ⟨(s.1 - e.1) * (1/100), (s.2 - e.2) * (1/100), -1⟩

/-- `InputManager.calculateForce(start, end)`: the raw direction scaled by
strength, then clamped componentwise: `x` to `[-strength, strength]`, `y` to
`[0, 2*strength]`, `z` to `[-2*strength, 0]`. -/
def InputManager.calculateForce (s e : ℚ × ℚ) (strength : ℚ) : Vec3 :=
  let d := InputManager.rawForce s e strength
  { x := clampQ d.x (-strength) strength
    y := clampQ d.y 0 (strength * 2)
    z := clampQ d.z (-(strength * 2)) 0 }

/-- Squared Euclidean distance between two screen points
(`start.distanceTo(end)` squared). -/
def dist2 (a b : ℚ × ℚ) : ℚ := (a.1 - b.1)^2 + (a.2 - b.2)^2

/-- `InputManager.handleMouseUp(event)`: ignores the event unless a swipe is
active; deactivates the swipe, records the end point, and invokes the commit
callback `onSwipe(force, false)` only when the start-to-end distance strictly
exceeds `minSwipeDistance` (embedded as the squared comparison). Returns the
new state and the committed force, when any. -/
def InputManager.handleMouseUp (s : InputSt) (p : ℚ × ℚ) : InputSt × Option Vec3 :=
  if s.isSwiping = false then (s, none)
  else
    let s' : InputSt := { s with isSwiping := false, endPoint := p }
    let force := InputManager.calculateForce s.startPoint p s.strength
    if dist2 s.startPoint p > minSwipeDistance^2 then (s', some force) else (s', none)

/-- `InputManager.handleTouchEnd()`: like `handleMouseUp` but the end point is
the one stored by the last `touchmove` (the `touchend` event carries no
touches). -/
def InputManager.handleTouchEnd (s : InputSt) : InputSt × Option Vec3 :=
  if s.isSwiping = false then (s, none)
  else
    let s' : InputSt := { s with isSwiping := false }
    let force := InputManager.calculateForce s.startPoint s.endPoint s.strength
    if dist2 s.startPoint s.endPoint > minSwipeDistance^2 then (s', some force) else (s', none)

/- ### Trajectory preview -/

/-- The preview's gravity vector `(0, -9.8, 0)`. -/
def gravity : Vec3 := ⟨0, -(98/10), 0⟩

/-- The preview's integration `timeStep = 0.1`. -/
def timeStep : ℚ := 1/10

/-- `trajectoryPoints = 20`: number of points in the trajectory line. -/
def trajectoryPoints : ℕ := 20

/-- The explicit-Euler iterates of the preview: position and velocity after
`n` steps, starting from `start` with velocity `force`; each step does
`position += velocity * timeStep` then `velocity += gravity * timeStep`. -/
def trajIter (start force : Vec3) : ℕ → Vec3 × Vec3
  | 0 => (start, force)
  | n + 1 =>
    let pv := trajIter start force n
    (vadd pv.1 (vsmul timeStep pv.2), vadd pv.2 (vsmul timeStep gravity))

/-- The simulation loop of `updateTrajectoryLine`: with `n` iterations left,
push the current position, advance one Euler step, and stop early when the
advanced position falls below the ground (`position.y < 0`). -/
def simPoints : ℕ → Vec3 → Vec3 → List Vec3
  | 0, _, _ => []
  | n + 1, p, v =>
    let p' := vadd p (vsmul timeStep v)
    let v' := vadd v (vsmul timeStep gravity)
    p :: (if p'.y < 0 then [] else simPoints n p' v')

/-- `InputManager.updateTrajectoryLine(startPosition, force)`: the sampled
polyline, padded with the origin sentinel up to `trajectoryPoints` entries
(the source pads the flat coordinate array to `trajectoryPoints * 3`). -/
def InputManager.updateTrajectoryLine (start force : Vec3) : List Vec3 :=
  let pts := simPoints trajectoryPoints start force
  pts ++ List.replicate (trajectoryPoints - pts.length) vzero

/-- The flat coordinate array (`positions`) backing the trajectory geometry:
three numbers per sample point. -/
def flatCoords (l : List Vec3) : List ℚ := l.flatMap (fun p => [p.x, p.y, p.z])

/- ### Hoop -/

/-- `rimRadius = 0.4` (the `Hoop` default; `Game` constructs the hoop with
only a `position` option). -/
def rimRadius : ℚ := 2/5

/-- The trigger-zone radius, `rimRadius * 0.8` (`createTriggerZone`). -/
def triggerZoneRadius : ℚ := rimRadius * (4/5)

/-- The vertical detection half-height used by `checkBasket`:
`Math.abs(ballLocalPos.y) < 0.15`. -/
def triggerZoneHalfHeight : ℚ := 3/20

/-- `Hoop.checkBasket(ball)` on the ball position expressed in the trigger
zone's local frame: inside iff the horizontal radial distance
`sqrt(x^2 + z^2)` is below `rimRadius * 0.8` and `Math.abs(y)` is below the
detection half-height (the radial comparison is embedded squared). -/
def Hoop.checkBasket (l : Vec3) : Bool :=
  decide (l.x * l.x + l.z * l.z < triggerZoneRadius^2 ∧ |l.y| < triggerZoneHalfHeight)

/- ### Basketball -/

/-- The observable state of a `Basketball` entity: whether the physics body
and the rendering mesh exist, the (body/mesh-synchronized) position, the
linear and angular velocity, the `isReset` flag, and `config.position`. -/
structure BallSt where
  hasBody : Bool
  hasMesh : Bool
  pos : Vec3
  vel : Vec3
  angVel : Vec3
  isReset : Bool
  configPos : Vec3
deriving DecidableEq

/-- `Basketball.reset(position)` of the first `Basketball` version in the
sources: when the body exists, set the body position to the given position
(or `config.position` when called with `null`), zero the linear and angular
velocity, and mark `isReset`; otherwise do nothing. -/
def BasketballV1.reset (s : BallSt) (position : Option Vec3) : BallSt :=
  if s.hasBody = true then
    let resetPos := position.getD s.configPos
    { s with pos := resetPos, vel := vzero, angVel := vzero, isReset := true }
  else s

/-- `Basketball.reset(position)` of the second `Basketball` version: when
both body and mesh exist, destroy the ball, store the reset position into
`config.position`, and re-run `create()`, which builds a fresh body/mesh at
`config.position`; a freshly created dynamic body is at rest, so the new
observable state has the given position and zero velocities. Otherwise do
nothing. -/
def BasketballV2.reset (s : BallSt) (position : Option Vec3) : BallSt :=
  if s.hasBody = true ∧ s.hasMesh = true then
    let resetPos := position.getD s.configPos
    { s with configPos := resetPos, pos := resetPos, vel := vzero, angVel := vzero,
             isReset := true, hasBody := true, hasMesh := true }
  else s

/-- `Basketball.getPosition()` (identical in both versions): the mesh
position when the mesh exists, else `new THREE.Vector3()`, the zero vector. -/
def Basketball.getPosition (s : BallSt) : Vec3 :=
  if s.hasMesh = true then s.pos else vzero

/-- `Basketball.getVelocity()` (identical in both versions): the body
velocity when the body exists, else `new THREE.Vector3()`, the zero vector. -/
def Basketball.getVelocity (s : BallSt) : Vec3 :=
  if s.hasBody = true then s.vel else vzero

/- ### Game: the shot state machine -/

/-- `Game.gameState`: `"IDLE" | "AIMING" | "SHOOTING" | "SCORED" | "RESET"`. -/
inductive GState where
  | IDLE
  | AIMING
  | SHOOTING
  | SCORED
  | RESET
deriving DecidableEq

/-- The game-logic state of `Game`. Ball kinematics belong to the physics
collaborator and enter as per-frame observations (`Obs`); `storedHighScore`
models the `localStorage` entry written by `saveHighScore`. The three timer
flags record whether the corresponding `setTimeout` / `delay(..).then`
callback is outstanding. -/
structure GameSt where
  gameState : GState
  score : ℕ
  highScore : ℕ
  streak : ℕ
  pendingReset : Bool
  shotStartTime : ℤ
  storedHighScore : ℕ
  hasBall : Bool
  ballHasMesh : Bool
  hasHoop : Bool
  hoopHasTrigger : Bool
  scoredTimer : Bool
  ballTimer : Bool
  testTimer : Bool
deriving DecidableEq

/-- One frame's observation of the basketball: world position and velocity
(as returned by `getPosition` / `getVelocity`) and the mesh position
expressed in the trigger zone's local frame (the `worldToLocal` input to
`Hoop.checkBasket`). -/
structure Obs where
  pos : Vec3
  vel : Vec3
  ballLocal : Vec3
deriving DecidableEq

/-- `maxShotTime = 2000` milliseconds. -/
def maxShotTime : ℤ := 2000

/-- `Game.checkForBasket()`: only while `SHOOTING`, with basketball, hoop,
ball mesh and trigger zone present and no reset pending; when the ball moves
downward (`velocity.y < 0`) and `Hoop.checkBasket` holds, increment score and
streak, update and persist the high score when exceeded, move to `SCORED`,
set `pendingReset` and schedule the scored reset timer. -/
def Game.checkForBasket (s : GameSt) (o : Obs) : GameSt :=
  if s.gameState = GState.SHOOTING ∧ s.hasBall = true ∧ s.hasHoop = true ∧
     s.ballHasMesh = true ∧ s.hoopHasTrigger = true ∧ s.pendingReset = false then
    if o.vel.y < 0 ∧ Hoop.checkBasket o.ballLocal = true then
      let score' := s.score + 1
      { s with score := score',
               streak := s.streak + 1,
               highScore := if score' > s.highScore then score' else s.highScore,
               storedHighScore := if score' > s.highScore then score' else s.storedHighScore,
               gameState := GState.SCORED,
               pendingReset := true,
               scoredTimer := true }
    else s
  else s

/-- The out-of-play condition of `Game.checkBallState()`: out of bounds
(`|x| > 10` or `|z| > 10`), below ground (`y < -5`), stopped
(`velocity.length() < 0.1`, embedded as the squared comparison), or shot
time exceeded (`Date.now() - shotStartTime > maxShotTime`). -/
def ballResetCond (pos vel : Vec3) (now start : ℤ) : Bool :=
  decide ((|pos.x| > 10 ∨ |pos.z| > 10) ∨ pos.y < -5 ∨
          vel.x^2 + vel.y^2 + vel.z^2 < (1/10 : ℚ)^2 ∨ now - start > maxShotTime)

/-- `Game.checkBallState()`: only while `SHOOTING`, with a basketball and no
reset pending; when the out-of-play condition holds, set `pendingReset`,
move to `RESET`, zero the streak and schedule the ball-state reset timer. -/
def Game.checkBallState (s : GameSt) (o : Obs) (now : ℤ) : GameSt :=
  if s.gameState = GState.SHOOTING ∧ s.hasBall = true ∧ s.pendingReset = false then
    if ballResetCond o.pos o.vel now s.shotStartTime = true then
      { s with pendingReset := true,
               gameState := GState.RESET,
               streak := 0,
               ballTimer := true }
    else s
  else s

/-- `Game.handleSwipe(force, isPreview)`: ignored while `SHOOTING` or without
a basketball. A preview updates the trajectory line and sets `AIMING`; a
committed swipe applies the adjusted force to the ball (a physics-side
effect), sets `SHOOTING` and records `shotStartTime = Date.now()`. -/
def Game.handleSwipe (s : GameSt) (isPreview : Bool) (now : ℤ) : GameSt :=
  if ¬s.gameState = GState.SHOOTING ∧ s.hasBall = true then
    if isPreview = true then { s with gameState := GState.AIMING }
    else { s with gameState := GState.SHOOTING, shotStartTime := now }
  else s

/-- `Game.testShot()` (space-bar handler), immediate part: unless `SHOOTING`
or without a basketball, reposition the ball onto the backboard edge (a
physics-side effect) and schedule the 100 ms test-shot timer. The game state
is not changed here. -/
def Game.testShot (s : GameSt) : GameSt :=
  if ¬s.gameState = GState.SHOOTING ∧ s.hasBall = true then
    { s with testTimer := true }
  else s

/-- `Game.resetBasketball()`: `try { basketball.reset(...); gameState =
"IDLE" } catch { log } finally { pendingReset = false }`. The `throws`
parameter says whether `basketball.reset` threw: on a throw only the
`finally` step runs. -/
def Game.resetBasketball (s : GameSt) (throws : Bool) : GameSt :=
  if throws = true then { s with pendingReset := false }
  else { s with gameState := GState.IDLE, pendingReset := false }

/-- The scored reset callback scheduled by `checkForBasket`:
`if (gameState === "SCORED") resetBasketball()`. -/
def Game.scoredTimerCb (s : GameSt) (throws : Bool) : GameSt :=
  if s.gameState = GState.SCORED then Game.resetBasketball s throws else s

/-- The ball-state reset callback scheduled by `checkBallState`: when the
basketball still exists, `try { reset; gameState = "IDLE" } catch { log }
finally { pendingReset = false }`; otherwise nothing. -/
def Game.ballTimerCb (s : GameSt) (throws : Bool) : GameSt :=
  if s.hasBall = true then
    if throws = true then { s with pendingReset := false }
    else { s with gameState := GState.IDLE, pendingReset := false }
  else s

/-- The events driving the shot state machine: an animation frame (physics
advance, then `checkForBasket`, then `checkBallState`), a gesture callback
from the `InputManager`, the space-bar test shot, and the three
timer-deferred callbacks — each may fire only while its flag is scheduled,
and `throws` says whether the underlying `basketball.reset` threw. -/
inductive GEvent where
  | frame (o : Obs) (now : ℤ)
  | swipe (force : Vec3) (isPreview : Bool) (now : ℤ)
  | keydownSpace
  | timerScored (throws : Bool)
  | timerBallState (throws : Bool)
  | timerTestShot
deriving DecidableEq

/-- One step of the shot state machine on an event. The test-shot callback
applies the drop force and sets `gameState = "SHOOTING"` unconditionally. -/
def Game.step (s : GameSt) (e : GEvent) : GameSt :=
  match e with
  | GEvent.frame o now => Game.checkBallState (Game.checkForBasket s o) o now
  | GEvent.swipe _ isPreview now => Game.handleSwipe s isPreview now
  | GEvent.keydownSpace => Game.testShot s
  | GEvent.timerScored throws =>
      if s.scoredTimer = true then Game.scoredTimerCb { s with scoredTimer := false } throws
      else s
  | GEvent.timerBallState throws =>
      if s.ballTimer = true then Game.ballTimerCb { s with ballTimer := false } throws
      else s
  | GEvent.timerTestShot =>
      if s.testTimer = true then { s with testTimer := false, gameState := GState.SHOOTING }
      else s

/-- The state of a freshly initialized game (after `initPhysics` created the
ball and hoop): `IDLE`, zero score/streak, no pending reset, no outstanding
timers; high score 0 for a fresh client (`loadHighScore` of an empty
`localStorage`). -/
def Game.initSt : GameSt :=
  { gameState := GState.IDLE, score := 0, highScore := 0, streak := 0,
    pendingReset := false, shotStartTime := 0, storedHighScore := 0,
    hasBall := true, ballHasMesh := true, hasHoop := true, hoopHasTrigger := true,
    scoredTimer := false, ballTimer := false, testTimer := false }

/- ### Helper lemmas -/

/-- `clampQ` lands in `[lo, hi]` whenever the interval is nonempty. -/
lemma clampQ_mem (v lo hi : ℚ) (h : lo ≤ hi) : lo ≤ clampQ v lo hi ∧ clampQ v lo hi ≤ hi :=
  ⟨le_max_left _ _, max_le h (min_le_right _ _)⟩

/-- Bridge from a real square root bound to the embedded squared comparison:
`√q ≤ 20` forces `q ≤ 20²` over the rationals. -/
lemma sqrt_le_twenty {q : ℚ} (h : Real.sqrt (q : ℝ) ≤ 20) : q ≤ 400 := by
  by_contra hq
  push_neg at hq
  have h4 : (400 : ℝ) < (q : ℝ) := by exact_mod_cast hq
  have h20 : (20 : ℝ) = Real.sqrt 400 := by
    rw [show (400 : ℝ) = 20 ^ 2 by norm_num, Real.sqrt_sq (by norm_num)]
  have : (20 : ℝ) < Real.sqrt (q : ℝ) := by
    rw [h20]
    exact Real.sqrt_lt_sqrt (by norm_num) h4
  linarith

/- ### C5 -/

/-- C5: for every gesture start/end pair and every nonnegative strength, the
force returned by `InputManager.calculateForce` satisfies
`x ∈ [-strength, strength]`, `y ∈ [0, 2·strength]`, `z ∈ [-2·strength, 0]`;
and before clamping the vector is
`((start.x - end.x) * 0.01, (start.y - end.y) * 0.01, -1)` scaled by the
strength. -/
theorem C5_force_clamp (s e : ℚ × ℚ) (strength : ℚ) (hs : 0 ≤ strength) :
    (-strength ≤ (InputManager.calculateForce s e strength).x ∧
      (InputManager.calculateForce s e strength).x ≤ strength) ∧
    (0 ≤ (InputManager.calculateForce s e strength).y ∧
      (InputManager.calculateForce s e strength).y ≤ 2 * strength) ∧
    (-(2 * strength) ≤ (InputManager.calculateForce s e strength).z ∧
      (InputManager.calculateForce s e strength).z ≤ 0) ∧
    InputManager.rawForce s e strength =
      vsmul strength ⟨(s.1 - e.1) * (1/100), (s.2 - e.2) * (1/100), -1⟩ := by
  have hxe : (InputManager.calculateForce s e strength).x =
      clampQ (InputManager.rawForce s e strength).x (-strength) strength := rfl
  have hye : (InputManager.calculateForce s e strength).y =
      clampQ (InputManager.rawForce s e strength).y 0 (strength * 2) := rfl
  have hze : (InputManager.calculateForce s e strength).z =
      clampQ (InputManager.rawForce s e strength).z (-(strength * 2)) 0 := rfl
  have hx := clampQ_mem (InputManager.rawForce s e strength).x (-strength) strength
    (by linarith)
  have hy := clampQ_mem (InputManager.rawForce s e strength).y 0 (strength * 2)
    (by linarith)
  have hz := clampQ_mem (InputManager.rawForce s e strength).z (-(strength * 2)) 0
    (by linarith)
  rw [hxe, hye, hze]
  refine ⟨⟨hx.1, hx.2⟩, ⟨hy.1, by linarith [hy.2]⟩, ⟨by linarith [hz.1], hz.2⟩, rfl⟩

/-- Witness for C5 at the spec's scenario gesture (start (100,500), end
(100,300)) and the game's configured strength 4. -/
theorem C5_force_clamp_witness :
    (0 : ℚ) ≤ 4 ∧
    ((-(4:ℚ) ≤ (InputManager.calculateForce (100, 500) (100, 300) 4).x ∧
      (InputManager.calculateForce (100, 500) (100, 300) 4).x ≤ 4) ∧
    (0 ≤ (InputManager.calculateForce (100, 500) (100, 300) 4).y ∧
      (InputManager.calculateForce (100, 500) (100, 300) 4).y ≤ 2 * 4) ∧
    (-(2 * 4) ≤ (InputManager.calculateForce (100, 500) (100, 300) 4).z ∧
      (InputManager.calculateForce (100, 500) (100, 300) 4).z ≤ 0) ∧
    InputManager.rawForce (100, 500) (100, 300) 4 =
      vsmul 4 ⟨((100:ℚ) - 100) * (1/100), ((500:ℚ) - 300) * (1/100), -1⟩) :=
  ⟨by norm_num, C5_force_clamp (100, 500) (100, 300) 4 (by norm_num)⟩

/- ### C6 -/

/-- C6: `Hoop.checkBasket` holds iff, in the trigger zone's local frame, the
horizontal radial distance `√(x² + z²)` is strictly below the trigger-zone
radius (`rimRadius · 0.8`) and the vertical offset magnitude is strictly
below the detection half-height; in particular it holds at the rim center
with zero vertical offset, and fails at any horizontal offset
`triggerZoneRadius + ε`. -/
theorem C6_basket_predicate :
    (∀ l : Vec3, Hoop.checkBasket l = true ↔
      (Real.sqrt ((l.x * l.x + l.z * l.z : ℚ) : ℝ) < ((triggerZoneRadius : ℚ) : ℝ) ∧
       |l.y| < triggerZoneHalfHeight)) ∧
    Hoop.checkBasket ⟨0, 0, 0⟩ = true ∧
    (∀ ε : ℚ, 0 < ε → ∀ y : ℚ,
      Hoop.checkBasket ⟨triggerZoneRadius + ε, y, 0⟩ = false) := by
  have hr : (0 : ℝ) < ((triggerZoneRadius : ℚ) : ℝ) := by
    norm_num [triggerZoneRadius, rimRadius]
  refine ⟨?_, ?_, ?_⟩
  · intro l
    simp only [Hoop.checkBasket, decide_eq_true_eq]
    rw [Real.sqrt_lt' hr]
    constructor
    · rintro ⟨h1, h2⟩
      exact ⟨by exact_mod_cast h1, h2⟩
    · rintro ⟨h1, h2⟩
      exact ⟨by exact_mod_cast h1, h2⟩
  · norm_num [Hoop.checkBasket, triggerZoneRadius, rimRadius, triggerZoneHalfHeight]
  · intro ε hε y
    have hr0 : (0 : ℚ) < triggerZoneRadius := by norm_num [triggerZoneRadius, rimRadius]
    have hout : ¬ ((triggerZoneRadius + ε) * (triggerZoneRadius + ε) + 0 * 0 <
        triggerZoneRadius ^ 2 ∧ |y| < triggerZoneHalfHeight) := by
      rintro ⟨h1, -⟩
      nlinarith
    simpa [Hoop.checkBasket] using hout

/-- Witness for C6 at `ε = 1/100`, `y = 1/10`. -/
theorem C6_basket_predicate_witness :
    (0 : ℚ) < 1/100 ∧
    Hoop.checkBasket ⟨triggerZoneRadius + 1/100, 1/10, 0⟩ = false :=
  ⟨by norm_num, C6_basket_predicate.2.2 (1/100) (by norm_num) (1/10)⟩

/- ### C7 -/

/-- C7: a gesture whose start-to-end Euclidean screen distance is at most
the 20 px `minSwipeDistance` never produces a committed force, for both the
mouse and touch end handlers; and both handlers leave `isSwiping = false`
whether or not the threshold was met. -/
theorem C7_min_swipe (s : InputSt) (p : ℚ × ℚ) :
    (Real.sqrt ((dist2 s.startPoint p : ℚ) : ℝ) ≤ 20 →
      (InputManager.handleMouseUp s p).2 = none) ∧
    (InputManager.handleMouseUp s p).1.isSwiping = false ∧
    (Real.sqrt ((dist2 s.startPoint s.endPoint : ℚ) : ℝ) ≤ 20 →
      (InputManager.handleTouchEnd s).2 = none) ∧
    (InputManager.handleTouchEnd s).1.isSwiping = false := by
  have hmin : minSwipeDistance ^ 2 = (400 : ℚ) := by norm_num [minSwipeDistance]
  refine ⟨?_, ?_, ?_, ?_⟩
  · intro h
    have hle : dist2 s.startPoint p ≤ 400 := sqrt_le_twenty h
    simp only [InputManager.handleMouseUp]
    split_ifs with h1 h2
    · rfl
    · rw [hmin] at h2; linarith
    · rfl
  · simp only [InputManager.handleMouseUp]
    split_ifs with h1 h2
    · simpa using h1
    · rfl
    · rfl
  · intro h
    have hle : dist2 s.startPoint s.endPoint ≤ 400 := sqrt_le_twenty h
    simp only [InputManager.handleTouchEnd]
    split_ifs with h1 h2
    · rfl
    · rw [hmin] at h2; linarith
    · rfl
  · simp only [InputManager.handleTouchEnd]
    split_ifs with h1 h2
    · simpa using h1
    · rfl
    · rfl

/-- Witness for C7: a 10-by-10-pixel drag (distance √200 ≤ 20) commits
nothing and deactivates the gesture. -/
theorem C7_min_swipe_witness :
    (Real.sqrt ((dist2 (0, 0) (10, 10) : ℚ) : ℝ) ≤ 20 →
      (InputManager.handleMouseUp ⟨(0, 0), (5, 5), true, 4⟩ (10, 10)).2 = none) ∧
    (InputManager.handleMouseUp ⟨(0, 0), (5, 5), true, 4⟩ (10, 10)).1.isSwiping = false ∧
    (Real.sqrt ((dist2 (0, 0) (5, 5) : ℚ) : ℝ) ≤ 20 →
      (InputManager.handleTouchEnd ⟨(0, 0), (5, 5), true, 4⟩).2 = none) ∧
    (InputManager.handleTouchEnd ⟨(0, 0), (5, 5), true, 4⟩).1.isSwiping = false :=
  C7_min_swipe ⟨(0, 0), (5, 5), true, 4⟩ (10, 10)

/- ### C9 -/

/-- C9: `Basketball.reset` is idempotent in both versions present in the
sources: with body (and, for the recreate version, mesh) present, a reset to
`p` leaves position `p` and zero linear and angular velocity, and resetting
again to the same `p` leaves the observable state unchanged. -/
theorem C9_reset_idempotent (s : BallSt) (p : Vec3)
    (hb : s.hasBody = true) (hm : s.hasMesh = true) :
    ((BasketballV1.reset s (some p)).pos = p ∧
     (BasketballV1.reset s (some p)).vel = vzero ∧
     (BasketballV1.reset s (some p)).angVel = vzero ∧
     BasketballV1.reset (BasketballV1.reset s (some p)) (some p) =
       BasketballV1.reset s (some p)) ∧
    ((BasketballV2.reset s (some p)).pos = p ∧
     (BasketballV2.reset s (some p)).vel = vzero ∧
     (BasketballV2.reset s (some p)).angVel = vzero ∧
     BasketballV2.reset (BasketballV2.reset s (some p)) (some p) =
       BasketballV2.reset s (some p)) := by
  constructor
  · constructor
    · simp [BasketballV1.reset, hb]
    · constructor
      · simp [BasketballV1.reset, hb]
      · constructor
        · simp [BasketballV1.reset, hb]
        · simp [BasketballV1.reset, hb]
  · constructor
    · simp [BasketballV2.reset, hb, hm]
    · constructor
      · simp [BasketballV2.reset, hb, hm]
      · constructor
        · simp [BasketballV2.reset, hb, hm]
        · simp [BasketballV2.reset, hb, hm]

/-- Witness for C9 at the game's reset position (0, 1.5, 2). -/
theorem C9_reset_idempotent_witness :
    ((BasketballV1.reset ⟨true, true, ⟨0, 1, 0⟩, ⟨1, 2, 3⟩, ⟨4, 5, 6⟩, false, ⟨0, 1, 0⟩⟩
        (some ⟨0, 3/2, 2⟩)).pos = ⟨0, 3/2, 2⟩ ∧
     (BasketballV1.reset ⟨true, true, ⟨0, 1, 0⟩, ⟨1, 2, 3⟩, ⟨4, 5, 6⟩, false, ⟨0, 1, 0⟩⟩
        (some ⟨0, 3/2, 2⟩)).vel = vzero ∧
     (BasketballV1.reset ⟨true, true, ⟨0, 1, 0⟩, ⟨1, 2, 3⟩, ⟨4, 5, 6⟩, false, ⟨0, 1, 0⟩⟩
        (some ⟨0, 3/2, 2⟩)).angVel = vzero ∧
     BasketballV1.reset
       (BasketballV1.reset ⟨true, true, ⟨0, 1, 0⟩, ⟨1, 2, 3⟩, ⟨4, 5, 6⟩, false, ⟨0, 1, 0⟩⟩
         (some ⟨0, 3/2, 2⟩)) (some ⟨0, 3/2, 2⟩) =
       BasketballV1.reset ⟨true, true, ⟨0, 1, 0⟩, ⟨1, 2, 3⟩, ⟨4, 5, 6⟩, false, ⟨0, 1, 0⟩⟩
         (some ⟨0, 3/2, 2⟩)) ∧
    ((BasketballV2.reset ⟨true, true, ⟨0, 1, 0⟩, ⟨1, 2, 3⟩, ⟨4, 5, 6⟩, false, ⟨0, 1, 0⟩⟩
        (some ⟨0, 3/2, 2⟩)).pos = ⟨0, 3/2, 2⟩ ∧
     (BasketballV2.reset ⟨true, true, ⟨0, 1, 0⟩, ⟨1, 2, 3⟩, ⟨4, 5, 6⟩, false, ⟨0, 1, 0⟩⟩
        (some ⟨0, 3/2, 2⟩)).vel = vzero ∧
     (BasketballV2.reset ⟨true, true, ⟨0, 1, 0⟩, ⟨1, 2, 3⟩, ⟨4, 5, 6⟩, false, ⟨0, 1, 0⟩⟩
        (some ⟨0, 3/2, 2⟩)).angVel = vzero ∧
     BasketballV2.reset
       (BasketballV2.reset ⟨true, true, ⟨0, 1, 0⟩, ⟨1, 2, 3⟩, ⟨4, 5, 6⟩, false, ⟨0, 1, 0⟩⟩
         (some ⟨0, 3/2, 2⟩)) (some ⟨0, 3/2, 2⟩) =
       BasketballV2.reset ⟨true, true, ⟨0, 1, 0⟩, ⟨1, 2, 3⟩, ⟨4, 5, 6⟩, false, ⟨0, 1, 0⟩⟩
         (some ⟨0, 3/2, 2⟩)) :=
  C9_reset_idempotent ⟨true, true, ⟨0, 1, 0⟩, ⟨1, 2, 3⟩, ⟨4, 5, 6⟩, false, ⟨0, 1, 0⟩⟩
    ⟨0, 3/2, 2⟩ rfl rfl

/- ### C10 -/

/-- C10: the position and velocity getters are total functions of the
observable state and fall back to the zero vector whenever the mesh
(respectively the body) is absent; when present they return the stored
kinematics. -/
theorem C10_getters_total (s : BallSt) :
    (s.hasMesh = false → Basketball.getPosition s = vzero) ∧
    (s.hasBody = false → Basketball.getVelocity s = vzero) ∧
    (s.hasMesh = true → Basketball.getPosition s = s.pos) ∧
    (s.hasBody = true → Basketball.getVelocity s = s.vel) := by
  refine ⟨?_, ?_, ?_, ?_⟩ <;> intro h <;>
    simp [Basketball.getPosition, Basketball.getVelocity, h]

/-- Witness for C10 at a torn-down ball (no mesh, no body). -/
theorem C10_getters_total_witness :
    Basketball.getPosition ⟨false, false, ⟨1, 2, 3⟩, ⟨4, 5, 6⟩, ⟨7, 8, 9⟩, false, ⟨0, 1, 0⟩⟩ =
      vzero ∧
    Basketball.getVelocity ⟨false, false, ⟨1, 2, 3⟩, ⟨4, 5, 6⟩, ⟨7, 8, 9⟩, false, ⟨0, 1, 0⟩⟩ =
      vzero :=
  ⟨(C10_getters_total _).1 rfl, (C10_getters_total _).2.1 rfl⟩

/- ### C3 -/

/-- C3: when the basket check fires (ball `SHOOTING`, entities present, no
pending reset, `velocity.y < 0`, basket predicate true), the frame step
moves to `SCORED`, increments score and streak by exactly 1, sets
`pendingReset`, and — exactly when the new score exceeds the stored high
score — sets and persists the high score to the new score, leaving both
unchanged otherwise. -/
theorem C3_scored_transition (s : GameSt) (o : Obs) (now : ℤ)
    (hstate : s.gameState = GState.SHOOTING)
    (hball : s.hasBall = true) (hhoop : s.hasHoop = true)
    (hmesh : s.ballHasMesh = true) (htrig : s.hoopHasTrigger = true)
    (hpend : s.pendingReset = false)
    (hsync : s.storedHighScore = s.highScore)
    (hvel : o.vel.y < 0) (hbasket : Hoop.checkBasket o.ballLocal = true) :
    (Game.step s (GEvent.frame o now)).gameState = GState.SCORED ∧
    (Game.step s (GEvent.frame o now)).score = s.score + 1 ∧
    (Game.step s (GEvent.frame o now)).streak = s.streak + 1 ∧
    (Game.step s (GEvent.frame o now)).pendingReset = true ∧
    (s.score + 1 > s.storedHighScore →
      (Game.step s (GEvent.frame o now)).highScore = s.score + 1 ∧
      (Game.step s (GEvent.frame o now)).storedHighScore = s.score + 1) ∧
    (¬ s.score + 1 > s.storedHighScore →
      (Game.step s (GEvent.frame o now)).highScore = s.highScore ∧
      (Game.step s (GEvent.frame o now)).storedHighScore = s.storedHighScore) := by
  have hcfb : Game.checkForBasket s o =
      { s with score := s.score + 1,
               streak := s.streak + 1,
               highScore := if s.score + 1 > s.highScore then s.score + 1 else s.highScore,
               storedHighScore :=
                 if s.score + 1 > s.highScore then s.score + 1 else s.storedHighScore,
               gameState := GState.SCORED,
               pendingReset := true,
               scoredTimer := true } := by
    rw [Game.checkForBasket]
    rw [if_pos ⟨hstate, hball, hhoop, hmesh, htrig, hpend⟩]
    rw [if_pos ⟨hvel, hbasket⟩]
  have hnot : ¬ ((Game.checkForBasket s o).gameState = GState.SHOOTING ∧
      (Game.checkForBasket s o).hasBall = true ∧
      (Game.checkForBasket s o).pendingReset = false) := by
    rw [hcfb]
    simp
  have hstep : Game.step s (GEvent.frame o now) = Game.checkForBasket s o := by
    rw [Game.step, Game.checkBallState, if_neg hnot]
  rw [hstep, hcfb, hsync]
  refine ⟨rfl, rfl, rfl, rfl, ?_, ?_⟩
  · intro hgt
    simp [hgt]
  · intro hgt
    simp [hgt]

/-- A mid-game state used to witness the scoring transition: `SHOOTING`,
score 5 against a (synchronized) high score of 3, streak 2. -/
def midGameSt : GameSt :=
  { Game.initSt with gameState := GState.SHOOTING, score := 5, highScore := 3,
                     storedHighScore := 3, streak := 2 }

/-- The spec's scoring scenario observation: downward velocity (0, -2, 0),
ball exactly at the rim center of the trigger zone. -/
def scoredObs : Obs := ⟨⟨0, 3, -5⟩, ⟨0, -2, 0⟩, ⟨0, 0, 0⟩⟩

/-- Witness for C3 at `midGameSt` and the spec's scoring scenario. -/
theorem C3_scored_transition_witness :
    (Game.step midGameSt (GEvent.frame scoredObs 100)).gameState = GState.SCORED ∧
    (Game.step midGameSt (GEvent.frame scoredObs 100)).score = 5 + 1 ∧
    (Game.step midGameSt (GEvent.frame scoredObs 100)).streak = 2 + 1 ∧
    (Game.step midGameSt (GEvent.frame scoredObs 100)).pendingReset = true ∧
    (Game.step midGameSt (GEvent.frame scoredObs 100)).highScore = 5 + 1 ∧
    (Game.step midGameSt (GEvent.frame scoredObs 100)).storedHighScore = 5 + 1 := by
  have h := C3_scored_transition midGameSt scoredObs 100
    rfl rfl rfl rfl rfl rfl rfl
    (by norm_num [scoredObs])
    (by norm_num [scoredObs, Hoop.checkBasket, triggerZoneRadius, rimRadius,
      triggerZoneHalfHeight])
  have hhs := h.2.2.2.2.1 (by norm_num [midGameSt])
  exact ⟨h.1, h.2.1, h.2.2.1, h.2.2.2.1, hhs.1, hhs.2⟩

/- ### C4 -/

/-- C4: while `SHOOTING` with a basketball and no reset pending, the
ball-state check fires exactly when one of the four out-of-play conditions
holds — `|x| > 10` or `|z| > 10`, `y < -5`, speed `√(vx²+vy²+vz²) < 0.1`, or
elapsed shot time `> 2000` ms — and then moves to `RESET`, zeroes the streak
and sets `pendingReset`; when none holds this check leaves the state
unchanged. -/
theorem C4_ball_state (s : GameSt) (o : Obs) (now : ℤ)
    (hstate : s.gameState = GState.SHOOTING)
    (hball : s.hasBall = true) (hpend : s.pendingReset = false) :
    (ballResetCond o.pos o.vel now s.shotStartTime = true ↔
      ((|o.pos.x| > 10 ∨ |o.pos.z| > 10) ∨ o.pos.y < -5 ∨
       Real.sqrt ((o.vel.x ^ 2 + o.vel.y ^ 2 + o.vel.z ^ 2 : ℚ) : ℝ) < 1/10 ∨
       now - s.shotStartTime > maxShotTime)) ∧
    (ballResetCond o.pos o.vel now s.shotStartTime = true →
      (Game.checkBallState s o now).gameState = GState.RESET ∧
      (Game.checkBallState s o now).streak = 0 ∧
      (Game.checkBallState s o now).pendingReset = true) ∧
    (ballResetCond o.pos o.vel now s.shotStartTime = false →
      Game.checkBallState s o now = s) := by
  have hspeed : (o.vel.x ^ 2 + o.vel.y ^ 2 + o.vel.z ^ 2 < (1/10 : ℚ)^2) ↔
      Real.sqrt ((o.vel.x ^ 2 + o.vel.y ^ 2 + o.vel.z ^ 2 : ℚ) : ℝ) < 1/10 := by
    rw [Real.sqrt_lt' (by norm_num : (0:ℝ) < 1/10)]
    constructor
    · intro h
      have h' : ((o.vel.x ^ 2 + o.vel.y ^ 2 + o.vel.z ^ 2 : ℚ) : ℝ) <
          (((1/10 : ℚ)^2 : ℚ) : ℝ) := by exact_mod_cast h
      calc ((o.vel.x ^ 2 + o.vel.y ^ 2 + o.vel.z ^ 2 : ℚ) : ℝ)
          < (((1/10 : ℚ)^2 : ℚ) : ℝ) := h'
        _ = (1/10 : ℝ)^2 := by push_cast; ring
    · intro h
      have h' : ((o.vel.x ^ 2 + o.vel.y ^ 2 + o.vel.z ^ 2 : ℚ) : ℝ) <
          (((1/10 : ℚ)^2 : ℚ) : ℝ) := by
        calc ((o.vel.x ^ 2 + o.vel.y ^ 2 + o.vel.z ^ 2 : ℚ) : ℝ)
            < (1/10 : ℝ)^2 := h
          _ = (((1/10 : ℚ)^2 : ℚ) : ℝ) := by push_cast; ring
      exact_mod_cast h'
  refine ⟨?_, ?_, ?_⟩
  · simp only [ballResetCond, decide_eq_true_eq, hspeed]
  · intro hc
    rw [Game.checkBallState, if_pos ⟨hstate, hball, hpend⟩, if_pos hc]
    exact ⟨rfl, rfl, rfl⟩
  · intro hc
    rw [Game.checkBallState, if_pos ⟨hstate, hball, hpend⟩, if_neg (by simp [hc])]

/-- A `SHOOTING` state with a running streak, used to witness the ball-state
reset. -/
def shootingSt : GameSt :=
  { Game.initSt with gameState := GState.SHOOTING, streak := 7 }

/-- The spec's miss scenario observation: the ball stopped (zero velocity)
at position (0, 0.5, -2), away from the trigger zone. -/
def stoppedObs : Obs := ⟨⟨0, 1/2, -2⟩, ⟨0, 0, 0⟩, ⟨0, 0, -3⟩⟩

/-- Witness for C4 at `shootingSt` and the spec's miss scenario. -/
theorem C4_ball_state_witness :
    (ballResetCond stoppedObs.pos stoppedObs.vel 100 shootingSt.shotStartTime = true) ∧
    (Game.checkBallState shootingSt stoppedObs 100).gameState = GState.RESET ∧
    (Game.checkBallState shootingSt stoppedObs 100).streak = 0 ∧
    (Game.checkBallState shootingSt stoppedObs 100).pendingReset = true := by
  have h := C4_ball_state shootingSt stoppedObs 100 rfl rfl rfl
  have hc : ballResetCond stoppedObs.pos stoppedObs.vel 100 shootingSt.shotStartTime = true := by
    simp only [ballResetCond, decide_eq_true_eq, stoppedObs, shootingSt, Game.initSt]
    norm_num
  exact ⟨hc, (h.2.1 hc).1, (h.2.1 hc).2.1, (h.2.1 hc).2.2⟩

/- ### C1 and C2: helper lemmas about the frame step -/

/-- The basket check either leaves the game state alone or moves
`SHOOTING` to `SCORED`. -/
lemma checkForBasket_gs (s : GameSt) (o : Obs) :
    (Game.checkForBasket s o).gameState = s.gameState ∨
    ((Game.checkForBasket s o).gameState = GState.SCORED ∧
     s.gameState = GState.SHOOTING) := by
  rw [Game.checkForBasket]
  split_ifs with h1 h2
  · exact Or.inr ⟨rfl, h1.1⟩
  · exact Or.inl rfl
  · exact Or.inl rfl

/-- The ball-state check either leaves the game state alone or moves
`SHOOTING` to `RESET`. -/
lemma checkBallState_gs (s : GameSt) (o : Obs) (now : ℤ) :
    (Game.checkBallState s o now).gameState = s.gameState ∨
    ((Game.checkBallState s o now).gameState = GState.RESET ∧
     s.gameState = GState.SHOOTING) := by
  rw [Game.checkBallState]
  split_ifs with h1 h2
  · exact Or.inr ⟨rfl, h1.1⟩
  · exact Or.inl rfl
  · exact Or.inl rfl

/- ### C1 -/

/-- The wedge trace for C1, first state: shoot from `Game.initSt`. The rest
of the trace: score (scheduling the delayed reset), swipe again during the
reset delay (legal, since the state is `SCORED`, not `SHOOTING`), then let
the scored reset timer fire. -/
def wedgeS1 : GameSt := Game.step Game.initSt (GEvent.swipe ⟨0, 4, -4⟩ false 0)

/-- The wedge trace, second state: the basket is made. -/
def wedgeS2 : GameSt := Game.step wedgeS1 (GEvent.frame scoredObs 100)

/-- The wedge trace, third state: the mid-delay committed swipe. -/
def wedgeS3 : GameSt := Game.step wedgeS2 (GEvent.swipe ⟨0, 4, -4⟩ false 400)

/-- The wedge trace, final state: the scored reset timer has fired. -/
def wedgeS4 : GameSt := Game.step wedgeS3 (GEvent.timerScored false)

/-- Counterexample to C1: after a basket schedules the delayed reset
(`pendingReset := true`), a committed swipe during the 800 ms delay moves
the machine to `SHOOTING`; when the deferred callback then fires (consuming
the timer) its `gameState === "SCORED"` guard fails, `resetBasketball` —
whose `finally` would clear the flag — never runs, and `pendingReset` stays
true; afterwards every event (frames, swipes, the space key, all timers)
leaves the wedged state completely unchanged, so the machine does remain
with `pendingReset` true forever. -/
theorem C1_counterexample :
    wedgeS2.gameState = GState.SCORED ∧ wedgeS2.pendingReset = true ∧
    wedgeS2.scoredTimer = true ∧
    wedgeS3.gameState = GState.SHOOTING ∧ wedgeS3.pendingReset = true ∧
    wedgeS4.scoredTimer = false ∧ wedgeS4.pendingReset = true ∧
    Game.step wedgeS4 (GEvent.frame ⟨⟨0, 0, 0⟩, ⟨0, 0, 0⟩, ⟨0, 0, 0⟩⟩ 10000) = wedgeS4 ∧
    Game.step wedgeS4 (GEvent.swipe ⟨0, 4, -4⟩ false 2000) = wedgeS4 ∧
    Game.step wedgeS4 (GEvent.swipe ⟨0, 4, -4⟩ true 2000) = wedgeS4 ∧
    Game.step wedgeS4 GEvent.keydownSpace = wedgeS4 ∧
    Game.step wedgeS4 (GEvent.timerScored false) = wedgeS4 ∧
    Game.step wedgeS4 (GEvent.timerScored true) = wedgeS4 ∧
    Game.step wedgeS4 (GEvent.timerBallState false) = wedgeS4 ∧
    Game.step wedgeS4 (GEvent.timerBallState true) = wedgeS4 ∧
    Game.step wedgeS4 GEvent.timerTestShot = wedgeS4 := by
  have h1 : wedgeS1 = { Game.initSt with gameState := GState.SHOOTING } := by
    rw [wedgeS1]
    norm_num [Game.step, Game.handleSwipe, Game.initSt]
  have h2 : wedgeS2 =
      { Game.initSt with gameState := GState.SCORED, score := 1, highScore := 1,
                         storedHighScore := 1, streak := 1, pendingReset := true,
                         scoredTimer := true } := by
    rw [wedgeS2, h1]
    norm_num [Game.step, Game.checkForBasket, Game.checkBallState,
      Game.initSt, scoredObs, Hoop.checkBasket, triggerZoneRadius, rimRadius,
      triggerZoneHalfHeight]
  have h3 : wedgeS3 =
      { Game.initSt with gameState := GState.SHOOTING, score := 1, highScore := 1,
                         storedHighScore := 1, streak := 1, pendingReset := true,
                         scoredTimer := true, shotStartTime := 400 } := by
    rw [wedgeS3, h2]
    norm_num [Game.step, Game.handleSwipe, Game.initSt]
    all_goals decide
  have h4 : wedgeS4 =
      { Game.initSt with gameState := GState.SHOOTING, score := 1, highScore := 1,
                         storedHighScore := 1, streak := 1, pendingReset := true,
                         scoredTimer := false, shotStartTime := 400 } := by
    rw [wedgeS4, h3]
    norm_num [Game.step, Game.scoredTimerCb, Game.resetBasketball, Game.initSt]
    all_goals decide
  refine ⟨by rw [h2], by rw [h2], by rw [h2], by rw [h3], by rw [h3],
          by rw [h4], by rw [h4], ?_, ?_, ?_, ?_, ?_, ?_, ?_, ?_, ?_⟩ <;>
    · rw [h4]
      norm_num [Game.step, Game.handleSwipe, Game.testShot, Game.checkForBasket,
        Game.checkBallState, Game.initSt]

/-- C1 as amended: a deferred reset callback clears `pendingReset` exactly
when its own guard passes — the ball-state callback whenever the basketball
still exists (even if `reset` throws, via `finally`), the scored callback
only when the game is still in `SCORED` when it fires (again even on a
throw); when the scored callback finds any other state it leaves
`pendingReset` untouched. -/
theorem C1_amended (s : GameSt) (throws : Bool) :
    (s.ballTimer = true → s.hasBall = true →
      (Game.step s (GEvent.timerBallState throws)).pendingReset = false) ∧
    (s.scoredTimer = true → s.gameState = GState.SCORED →
      (Game.step s (GEvent.timerScored throws)).pendingReset = false) ∧
    (s.scoredTimer = true → ¬ s.gameState = GState.SCORED →
      (Game.step s (GEvent.timerScored throws)).pendingReset = s.pendingReset) := by
  refine ⟨?_, ?_, ?_⟩
  · intro ht hb
    rw [Game.step, if_pos ht, Game.ballTimerCb]
    cases throws <;> simp [hb]
  · intro ht hsc
    rw [Game.step, if_pos ht, Game.scoredTimerCb, Game.resetBasketball]
    cases throws <;> simp [hsc]
  · intro ht hsc
    rw [Game.step, if_pos ht, Game.scoredTimerCb]
    rw [if_neg (by simpa using hsc)]

/-- Witness for C1 as amended: a scheduled ball-state reset whose callback
fires while the ball still exists, and a scheduled scored reset firing still
in `SCORED`, both clear the flag; one firing after the state moved on does
not. -/
theorem C1_amended_witness :
    (Game.step { Game.initSt with ballTimer := true, pendingReset := true }
      (GEvent.timerBallState false)).pendingReset = false ∧
    (Game.step { Game.initSt with scoredTimer := true, pendingReset := true,
                                  gameState := GState.SCORED }
      (GEvent.timerScored true)).pendingReset = false ∧
    (Game.step { Game.initSt with scoredTimer := true, pendingReset := true,
                                  gameState := GState.SHOOTING }
      (GEvent.timerScored false)).pendingReset =
      ({ Game.initSt with scoredTimer := true, pendingReset := true,
                          gameState := GState.SHOOTING } : GameSt).pendingReset :=
  ⟨(C1_amended { Game.initSt with ballTimer := true, pendingReset := true } false).1
      rfl rfl,
   (C1_amended { Game.initSt with scoredTimer := true, pendingReset := true,
                                  gameState := GState.SCORED } true).2.1 rfl rfl,
   (C1_amended { Game.initSt with scoredTimer := true, pendingReset := true,
                                  gameState := GState.SHOOTING } false).2.2 rfl
      (by simp)⟩

/- ### C2 -/

/-- Test-shot trace for C2, first state: pressing the space key in `IDLE`
schedules the test-shot timer. -/
def testT1 : GameSt := Game.step Game.initSt GEvent.keydownSpace

/-- Test-shot trace, second state: the 100 ms test-shot callback fires. -/
def testT2 : GameSt := Game.step testT1 GEvent.timerTestShot

/-- Stale-reset trace for C2, first state: a committed swipe from `IDLE`. -/
def staleU1 : GameSt := Game.step Game.initSt (GEvent.swipe ⟨0, 4, -4⟩ false 0)

/-- Stale-reset trace, second state: a frame sees the ball stopped, moving
the machine to `RESET` and scheduling the ball-state reset timer. -/
def staleU2 : GameSt := Game.step staleU1 (GEvent.frame stoppedObs 100)

/-- Stale-reset trace, third state: a committed swipe during the reset delay
(legal: the state is `RESET`, not `SHOOTING`) moves back to `SHOOTING`. -/
def staleU3 : GameSt := Game.step staleU2 (GEvent.swipe ⟨0, 4, -4⟩ false 400)

/-- Stale-reset trace, final state: the ball-state reset timer fires. -/
def staleU4 : GameSt := Game.step staleU3 (GEvent.timerBallState false)

/-- Counterexample to C2, both halves. First: from `IDLE`, the space-key
test shot — not a gesture — moves the machine to `SHOOTING` when its 100 ms
callback fires. Second: from `SHOOTING` (re-entered during a pending reset
delay), the stale ball-state reset callback moves the machine directly to
`IDLE`, which is neither `SCORED` nor `RESET`. -/
theorem C2_counterexample :
    (testT1.gameState = GState.IDLE ∧ testT2.gameState = GState.SHOOTING) ∧
    (staleU3.gameState = GState.SHOOTING ∧ staleU4.gameState = GState.IDLE) := by
  have ht1 : testT1 = { Game.initSt with testTimer := true } := by
    rw [testT1]
    norm_num [Game.step, Game.testShot, Game.initSt]
    all_goals decide
  have ht2 : testT2.gameState = GState.SHOOTING := by
    rw [testT2, ht1]
    norm_num [Game.step, Game.initSt]
  have hu1 : staleU1 = { Game.initSt with gameState := GState.SHOOTING } := by
    rw [staleU1]
    norm_num [Game.step, Game.handleSwipe, Game.initSt]
  have hu2 : staleU2 =
      { Game.initSt with gameState := GState.RESET, streak := 0,
                         pendingReset := true, ballTimer := true } := by
    rw [staleU2, hu1]
    norm_num [Game.step, Game.checkForBasket, Game.checkBallState, ballResetCond,
      Game.initSt, stoppedObs, Hoop.checkBasket, triggerZoneRadius, rimRadius,
      triggerZoneHalfHeight]
  have hu3 : staleU3 =
      { Game.initSt with gameState := GState.SHOOTING, streak := 0,
                         pendingReset := true, ballTimer := true,
                         shotStartTime := 400 } := by
    rw [staleU3, hu2]
    norm_num [Game.step, Game.handleSwipe, Game.initSt]
    all_goals decide
  have hu4 : staleU4.gameState = GState.IDLE := by
    rw [staleU4, hu3]
    norm_num [Game.step, Game.ballTimerCb, Game.initSt]
  exact ⟨⟨by rw [ht1]; rfl, ht2⟩, ⟨by rw [hu3], hu4⟩⟩

/-- C2 as amended: from `SHOOTING` the machine either stays in `SHOOTING`,
moves to `SCORED` (basket check) or `RESET` (ball-state check), or — the one
exception — is moved to `IDLE` by a previously scheduled ball-state reset
callback firing late; from `IDLE`, the only events that move the machine to
`SHOOTING` are a committed (non-preview) gesture and the firing of a
previously scheduled space-key test-shot callback. -/
theorem C2_amended (s : GameSt) (e : GEvent) :
    (s.gameState = GState.SHOOTING →
      ((Game.step s e).gameState = GState.SHOOTING ∨
       (Game.step s e).gameState = GState.SCORED ∨
       (Game.step s e).gameState = GState.RESET ∨
       ((Game.step s e).gameState = GState.IDLE ∧
        (∃ b, e = GEvent.timerBallState b) ∧ s.ballTimer = true))) ∧
    (s.gameState = GState.IDLE → (Game.step s e).gameState = GState.SHOOTING →
      ((∃ f now, e = GEvent.swipe f false now) ∨
       (e = GEvent.timerTestShot ∧ s.testTimer = true))) := by
  constructor
  · intro hsh
    cases e with
    | frame o now =>
      rcases checkForBasket_gs s o with hc | hc
      · rcases checkBallState_gs (Game.checkForBasket s o) o now with hb | hb
        · rw [Game.step, hb, hc, hsh]
          exact Or.inl rfl
        · rw [Game.step, hb.1]
          exact Or.inr (Or.inr (Or.inl rfl))
      · rcases checkBallState_gs (Game.checkForBasket s o) o now with hb | hb
        · rw [Game.step, hb, hc.1]
          exact Or.inr (Or.inl rfl)
        · rw [hc.1] at hb
          exact absurd hb.2 (by decide)
    | swipe f p now =>
      rw [Game.step, Game.handleSwipe, if_neg (by simp [hsh])]
      exact Or.inl hsh
    | keydownSpace =>
      rw [Game.step, Game.testShot, if_neg (by simp [hsh])]
      exact Or.inl hsh
    | timerScored throws =>
      rw [Game.step]
      split_ifs with ht
      · rw [Game.scoredTimerCb, if_neg (by simp [hsh])]
        exact Or.inl hsh
      · exact Or.inl hsh
    | timerBallState throws =>
      rw [Game.step]
      split_ifs with ht
      · rw [Game.ballTimerCb]
        split_ifs with hb hthr
        · exact Or.inl hsh
        · exact Or.inr (Or.inr (Or.inr ⟨rfl, ⟨throws, rfl⟩, ht⟩))
        · exact Or.inl hsh
      · exact Or.inl hsh
    | timerTestShot =>
      rw [Game.step]
      split_ifs with ht
      · exact Or.inl rfl
      · exact Or.inl hsh
  · intro hid hsh
    cases e with
    | frame o now =>
      exfalso
      rcases checkForBasket_gs s o with hc | hc
      · rcases checkBallState_gs (Game.checkForBasket s o) o now with hb | hb
        · rw [Game.step, hb, hc, hid] at hsh
          exact absurd hsh (by decide)
        · rw [hc, hid] at hb
          exact absurd hb.2 (by decide)
      · rw [hid] at hc
        exact absurd hc.2 (by decide)
    | swipe f p now =>
      by_cases hp : p = true
      · exfalso
        rw [Game.step, Game.handleSwipe] at hsh
        by_cases h1 : (¬ s.gameState = GState.SHOOTING ∧ s.hasBall = true)
        · rw [if_pos h1, if_pos hp] at hsh
          simp at hsh
        · rw [if_neg h1, hid] at hsh
          exact absurd hsh (by decide)
      · have hp' : p = false := by simpa using hp
        exact Or.inl ⟨f, now, by rw [hp']⟩
    | keydownSpace =>
      rw [Game.step, Game.testShot] at hsh
      split_ifs at hsh <;> rw [hid] at hsh <;> exact absurd hsh (by decide)
    | timerScored throws =>
      exfalso
      rw [Game.step] at hsh
      split_ifs at hsh with ht
      · rw [Game.scoredTimerCb] at hsh
        split_ifs at hsh with hsc
        · rw [hid] at hsc
          exact absurd hsc (by decide)
        · rw [hid] at hsh
          exact absurd hsh (by decide)
      · rw [hid] at hsh
        exact absurd hsh (by decide)
    | timerBallState throws =>
      exfalso
      rw [Game.step] at hsh
      split_ifs at hsh with ht
      · rw [Game.ballTimerCb] at hsh
        split_ifs at hsh <;> rw [hid] at hsh <;> exact absurd hsh (by decide)
      · rw [hid] at hsh
        exact absurd hsh (by decide)
    | timerTestShot =>
      rw [Game.step] at hsh
      split_ifs at hsh with ht
      · exact Or.inr ⟨rfl, ht⟩
      · rw [hid] at hsh
        exact absurd hsh (by decide)

/-- Witness for C2 as amended: a committed swipe out of `IDLE` is classified
as a gesture commit, and a frame while `SHOOTING` keeps the machine within
the allowed successors. -/
theorem C2_amended_witness :
    ((∃ f now, GEvent.swipe ⟨0, 4, -4⟩ false 0 = GEvent.swipe f false now) ∨
     (GEvent.swipe ⟨0, 4, -4⟩ false 0 = GEvent.timerTestShot ∧
      Game.initSt.testTimer = true)) ∧
    ((Game.step shootingSt (GEvent.frame stoppedObs 100)).gameState = GState.SHOOTING ∨
     (Game.step shootingSt (GEvent.frame stoppedObs 100)).gameState = GState.SCORED ∨
     (Game.step shootingSt (GEvent.frame stoppedObs 100)).gameState = GState.RESET ∨
     ((Game.step shootingSt (GEvent.frame stoppedObs 100)).gameState = GState.IDLE ∧
      (∃ b, GEvent.frame stoppedObs 100 = GEvent.timerBallState b) ∧
      shootingSt.ballTimer = true)) :=
  ⟨(C2_amended Game.initSt (GEvent.swipe ⟨0, 4, -4⟩ false 0)).2 rfl (by decide),
   (C2_amended shootingSt (GEvent.frame stoppedObs 100)).1 rfl⟩

/- ### C8 -/

/-- Three flat coordinates per sample point. -/
lemma flatCoords_length (l : List Vec3) : (flatCoords l).length = 3 * l.length := by
  induction l with
  | nil => simp [flatCoords]
  | cons a t ih =>
    simp only [flatCoords, List.flatMap_cons, List.length_append, List.length_cons,
      List.length_nil] at *
    omega

/-- Characterization of the preview sampling loop: started at the `m`-th
Euler iterate with `n` iterations left, it emits the iterates `m, m+1, ...`
up to either the iteration bound or (exclusively) the first later iterate
whose height falls below ground. -/
lemma simPoints_spec (start force : Vec3) :
    ∀ n m : ℕ, ∃ k, k ≤ n ∧
      simPoints n (trajIter start force m).1 (trajIter start force m).2 =
        (List.range k).map (fun i => (trajIter start force (m + i)).1) ∧
      (n ≠ 0 → 1 ≤ k) ∧
      (k < n → ((trajIter start force (m + k)).1).y < 0) ∧
      (∀ j, 1 ≤ j → j < k → 0 ≤ ((trajIter start force (m + j)).1).y) := by
  intro n
  induction n with
  | zero =>
    intro m
    exact ⟨0, le_refl 0, by simp [simPoints], by simp, by omega, by omega⟩
  | succ n ih =>
    intro m
    have hstep1 : vadd (trajIter start force m).1 (vsmul timeStep (trajIter start force m).2) =
        (trajIter start force (m + 1)).1 := rfl
    have hstep2 : vadd (trajIter start force m).2 (vsmul timeStep gravity) =
        (trajIter start force (m + 1)).2 := rfl
    by_cases hneg : ((trajIter start force (m + 1)).1).y < 0
    · refine ⟨1, by omega, ?_, fun _ => le_refl 1, ?_, ?_⟩
      · simp only [simPoints]
        rw [hstep1, if_pos hneg]
        rw [show List.range 1 = [0] from rfl, List.map_cons, List.map_nil, Nat.add_zero]
      · intro _
        exact hneg
      · intro j hj1 hj2
        omega
    · obtain ⟨k, hk, heq, hone, hbr, hmin⟩ := ih (m + 1)
      refine ⟨k + 1, by omega, ?_, fun _ => by omega, ?_, ?_⟩
      · simp only [simPoints]
        rw [hstep1, hstep2, if_neg hneg, heq]
        rw [List.range_succ_eq_map, List.map_cons, List.map_map]
        congr 1
        apply List.map_congr_left
        intro i hi
        show (trajIter start force (m + 1 + i)).1 = (trajIter start force (m + (i + 1))).1
        rw [show m + 1 + i = m + (i + 1) from by omega]
      · intro hklt
        have h := hbr (by omega)
        have hidx : m + 1 + k = m + (k + 1) := by omega
        rw [hidx] at h
        exact h
      · intro j hj1 hj2
        by_cases hj : j = 1
        · subst hj
          simpa using not_lt.mp hneg
        · obtain ⟨i, rfl⟩ : ∃ i, j = i + 1 := ⟨j - 1, by omega⟩
          have h := hmin i (by omega) (by omega)
          have hidx : m + 1 + i = m + (i + 1) := by omega
          rw [hidx] at h
          exact h

/-- C8: the trajectory preview always produces exactly `trajectoryPoints =
20` sample points (60 flat coordinates); the emitted prefix consists of the
explicit-Euler iterates (time step 0.1 s, constant acceleration (0, -9.8, 0)
on a velocity initialized to the force), starting with the start position
itself; the iteration stops early exactly when the next iterate's height
drops below 0 (every emitted iterate after the first is at or above ground);
and all remaining slots hold the origin sentinel. -/
theorem C8_trajectory (start force : Vec3) :
    ∃ k, 1 ≤ k ∧ k ≤ trajectoryPoints ∧
      (InputManager.updateTrajectoryLine start force).length = trajectoryPoints ∧
      (flatCoords (InputManager.updateTrajectoryLine start force)).length = 60 ∧
      InputManager.updateTrajectoryLine start force =
        ((List.range k).map fun i => (trajIter start force i).1) ++
          List.replicate (trajectoryPoints - k) vzero ∧
      (trajIter start force 0).1 = start ∧
      (∀ i, (trajIter start force (i + 1)).1 =
          vadd (trajIter start force i).1 (vsmul timeStep (trajIter start force i).2) ∧
        (trajIter start force (i + 1)).2 =
          vadd (trajIter start force i).2 (vsmul timeStep gravity)) ∧
      (k < trajectoryPoints → ((trajIter start force k).1).y < 0) ∧
      (∀ j, 1 ≤ j → j < k → 0 ≤ ((trajIter start force j).1).y) := by
  obtain ⟨k, hk, heq, hone, hbr, hmin⟩ := simPoints_spec start force trajectoryPoints 0
  have hiter : simPoints trajectoryPoints start force =
      (List.range k).map (fun i => (trajIter start force i).1) := by
    simpa [trajIter] using heq
  have hlen : (simPoints trajectoryPoints start force).length = k := by
    rw [hiter]
    simp
  have hupdate : InputManager.updateTrajectoryLine start force =
      ((List.range k).map fun i => (trajIter start force i).1) ++
        List.replicate (trajectoryPoints - k) vzero := by
    simp only [InputManager.updateTrajectoryLine]
    rw [hlen, hiter]
  have hulen : (InputManager.updateTrajectoryLine start force).length = trajectoryPoints := by
    rw [hupdate]
    simp only [List.length_append, List.length_map, List.length_range, List.length_replicate]
    omega
  refine ⟨k, hone (by norm_num [trajectoryPoints]), hk, hulen, ?_, hupdate, rfl,
      fun i => ⟨rfl, rfl⟩, ?_, ?_⟩
  · rw [flatCoords_length, hulen]
    rfl
  · intro hklt
    simpa using hbr hklt
  · intro j hj1 hj2
    simpa using hmin j hj1 hj2

/-- Witness for C8 at the game's ball start position (0, 1.5, 2) and a
plausible committed force. -/
theorem C8_trajectory_witness :
    ∃ k, 1 ≤ k ∧ k ≤ trajectoryPoints ∧
      (InputManager.updateTrajectoryLine ⟨0, 3/2, 2⟩ ⟨0, 5, -8⟩).length = trajectoryPoints ∧
      (flatCoords (InputManager.updateTrajectoryLine ⟨0, 3/2, 2⟩ ⟨0, 5, -8⟩)).length = 60 ∧
      InputManager.updateTrajectoryLine ⟨0, 3/2, 2⟩ ⟨0, 5, -8⟩ =
        ((List.range k).map fun i => (trajIter ⟨0, 3/2, 2⟩ ⟨0, 5, -8⟩ i).1) ++
          List.replicate (trajectoryPoints - k) vzero ∧
      (trajIter ⟨0, 3/2, 2⟩ ⟨0, 5, -8⟩ 0).1 = ⟨0, 3/2, 2⟩ ∧
      (∀ i, (trajIter ⟨0, 3/2, 2⟩ ⟨0, 5, -8⟩ (i + 1)).1 =
          vadd (trajIter ⟨0, 3/2, 2⟩ ⟨0, 5, -8⟩ i).1
            (vsmul timeStep (trajIter ⟨0, 3/2, 2⟩ ⟨0, 5, -8⟩ i).2) ∧
        (trajIter ⟨0, 3/2, 2⟩ ⟨0, 5, -8⟩ (i + 1)).2 =
          vadd (trajIter ⟨0, 3/2, 2⟩ ⟨0, 5, -8⟩ i).2 (vsmul timeStep gravity)) ∧
      (k < trajectoryPoints → ((trajIter ⟨0, 3/2, 2⟩ ⟨0, 5, -8⟩ k).1).y < 0) ∧
      (∀ j, 1 ≤ j → j < k → 0 ≤ ((trajIter ⟨0, 3/2, 2⟩ ⟨0, 5, -8⟩ j).1).y) :=
  C8_trajectory ⟨0, 3/2, 2⟩ ⟨0, 5, -8⟩
